import Mathlib

/-!
Shallow embedding of the poll-vote reconciliation and reminder-scheduling
core of the Discord bot (src/handlers/poll_commands.py,
src/services/reminder_manager.py, src/botcore/bot.py).

Time is modelled as `Int` minutes (the source works with naive-UTC
`datetime` values and `timedelta(minutes=...)` arithmetic).
-/

namespace DiscordBot

/-- Row of the `polls` table (db/models.py, class Poll).  `options` is the
comma-separated option string, exactly as stored. -/
structure Poll where
  pollId : String
  question : String
  options : String
  creatorId : Nat
  channelId : Option Nat
  isActive : Bool
  isAdvanced : Bool
  createdAt : Int
  expiresAt : Option Int
deriving DecidableEq

/-- Row of the `votes` table (db/models.py, class Vote). -/
structure Vote where
  pollId : String
  userId : Nat
  optionIndex : Int
  votedAt : Int
deriving DecidableEq

/-- Comma-splitting of a character list, the recursion behind `splitOnComma`. -/
def splitChars (sep : Char) : List Char → List (List Char)
  | [] => [[]]
  | d :: rest =>
    let r := splitChars sep rest
    if d == sep then [] :: r
    else (d :: r.head!) :: r.tail!

/-- Python `s.split(",")` (equivalently Lean `String.splitOn ","`): splits on
every comma, keeping empty segments; the empty string yields `[""]`. -/
def splitOnComma (s : String) : List String :=
  (splitChars ',' s.toList).map String.mk

/-- `session.execute(select(Poll).where(Poll.poll_id == poll_id))` followed by
`scalar_one_or_none()` — `poll_id` is unique, so the first match. -/
def findPoll (polls : List Poll) (pid : String) : Option Poll :=
  polls.find? (fun p => p.pollId == pid)

/-- `poll.expires_at and datetime.utcnow() > poll.expires_at` — a poll with no
expiry never counts as expired. -/
def pollExpired (p : Poll) (now : Int) : Bool :=
  match p.expiresAt with
  | some t => decide (now > t)
  | none => false

/-- Committing `poll.is_active = False` for the poll with the given id. -/
def deactivatePoll (polls : List Poll) (pid : String) : List Poll :=
  polls.map (fun p => if p.pollId == pid then { p with isActive := false } else p)

/-- The persisted Vote rows for a given (poll, user) pair. -/
def votesFor (pid : String) (uid : Nat) (votes : List Vote) : List Vote :=
  votes.filter (fun v => v.pollId == pid && v.userId == uid)

/-- Outcome of `vote_poll_command`, matching the branches of the handler. -/
inductive VoteOutcome where
  | notFoundOrClosed
  | expired
  | invalidOptions (bad : List Int)
  | success (selected : List Int)
deriving DecidableEq

/-- `vote_poll_command` (src/handlers/poll_commands.py, lines 194-256), from
the already-parsed option-number list onward.  Steps: look the poll up; reject
if missing/inactive; deactivate and reject if past expiry; reject any 1-based
number outside `[1, len(options)]`; de-duplicate and sort
(`sorted(list(set(option_list)))`); delete every Vote row for
(poll_id, user_id); insert one row per selected number, converted to 0-based. -/
def vote_poll_command (polls : List Poll) (votes : List Vote) (pid : String)
    (uid : Nat) (optionList : List Int) (now : Int) :
    VoteOutcome × List Poll × List Vote :=
  match findPoll polls pid with
  | none => (.notFoundOrClosed, polls, votes)
  | some poll =>
    if !poll.isActive then (.notFoundOrClosed, polls, votes)
    else if pollExpired poll now then (.expired, deactivatePoll polls pid, votes)
    else
      let options := splitOnComma poll.options
      let invalid := optionList.filter
        (fun n => decide (n < 1) || decide (n > (options.length : Int)))
      if !invalid.isEmpty then (.invalidOptions invalid, polls, votes)
      else
        let selected := List.insertionSort (· ≤ ·) optionList.dedup
        let kept := votes.filter (fun v => !(v.pollId == pid && v.userId == uid))
        let fresh := selected.map (fun n => Vote.mk pid uid (n - 1) now)
        (.success selected, polls, kept ++ fresh)

/-- One reaction on the poll message: the emoji (as the string `str(reaction.emoji)`)
together with the ids of the users who reacted with it. -/
structure Reaction where
  emoji : String
  userIds : List Nat
deriving DecidableEq

/-- The option indices derived from the user's current reactions
(src/handlers/poll_commands.py, lines 26-38): keep single-character emojis with
code point in `[0x1F1E6, 0x1F1F9]` that the user reacted to, mapped to
`code − 0x1F1E6`. -/
def reactionIndices (reactions : List Reaction) (uid : Nat) : List Nat :=
  reactions.filterMap (fun r =>
    match r.emoji.toList with
    | [c] =>
      let code := c.toNat
      if 0x1F1E6 ≤ code ∧ code ≤ 0x1F1F9 ∧ uid ∈ r.userIds then
        some (code - 0x1F1E6)
      else none
    | _ => none)

/-- `sync_reaction_votes` (src/handlers/poll_commands.py, lines 8-63): look the
poll up; fail if missing/inactive; deactivate and fail if past expiry; derive
the user's reaction indices, keep those below the option count; delete every
Vote row for (poll_id, user_id); insert one row per kept index. -/
def sync_reaction_votes (polls : List Poll) (votes : List Vote) (pid : String)
    (uid : Nat) (reactions : List Reaction) (now : Int) :
    Bool × List Poll × List Vote :=
  match findPoll polls pid with
  | none => (false, polls, votes)
  | some poll =>
    if !poll.isActive then (false, polls, votes)
    else if pollExpired poll now then (false, deactivatePoll polls pid, votes)
    else
      let options := splitOnComma poll.options
      let valid := (reactionIndices reactions uid).filter
        (fun idx => decide (idx < options.length))
      let kept := votes.filter (fun v => !(v.pollId == pid && v.userId == uid))
      let fresh := valid.map (fun idx : Nat => Vote.mk pid uid (idx : Int) now)
      (true, polls, kept ++ fresh)

/-- `TargetType` enum (services/reminder_manager.py). -/
inductive TargetType where
  | poll
  | event
  | custom
deriving DecidableEq

/-- `TriggerType` enum (services/reminder_manager.py). -/
inductive TriggerType where
  | specificTime
  | timeBefore
  | interval
deriving DecidableEq

/-- Row of the `reminder_templates` table, with the fields the executor uses. -/
structure Template where
  id : Nat
  name : String
  messageTemplate : String
  priority : String
  pingRoles : List Nat
  pingUsers : List Nat
  embedColor : String
  createdBy : Nat
deriving DecidableEq

/-- Row of the `reminders` table (db/models.py, class Reminder). -/
structure Reminder where
  reminderId : String
  templateId : Nat
  targetType : TargetType
  targetId : Option String
  channelId : Nat
  triggerType : TriggerType
  triggerTime : Option Int
  timeBeforeMinutes : Int
  intervalMinutes : Int
  isRecurring : Bool
  maxOccurrences : Option Nat
  occurrenceCount : Nat
  nextTrigger : Option Int
  lastTriggered : Option Int
  isActive : Bool
  customData : List (String × String)
  createdBy : Nat
deriving DecidableEq

/-- Row of the `reminder_logs` table as appended by `_log_reminder`. -/
structure LogEntry where
  reminderId : String
  triggeredAt : Int
  status : String
  errorMessage : Option String
  messageContent : Option String
deriving DecidableEq

def findReminder (rs : List Reminder) (rid : String) : Option Reminder :=
  rs.find? (fun r => r.reminderId == rid)

def findTemplate (ts : List Template) (tid : Nat) : Option Template :=
  ts.find? (fun t => t.id == tid)

/-- `session.commit()` of in-place mutations of the loaded reminder row. -/
def updateReminder (rs : List Reminder) (rid : String) (r' : Reminder) : List Reminder :=
  rs.map (fun r => if r.reminderId == rid then r' else r)

/-- Truthiness of `reminder.max_occurrences` in Python: `None` and `0` both
read as "no cap" in `not reminder.max_occurrences or ...`. -/
def hasNoCap : Option Nat → Bool
  | none => true
  | some n => n == 0

/-- Rendering an integer timestamp; stands in for `strftime` on the naive-UTC
clock value. -/
def formatTime (t : Int) : String := toString t

/-- `h`/`m` rendering of a positive remaining time, as in `_get_poll_context`:
`hours = total // 60`, `minutes = total % 60`. -/
def formatDelta (delta : Int) : String :=
  let hours := delta / 60
  let minutes := delta % 60
  if hours > 0 then toString hours ++ "h " ++ toString minutes ++ "m"
  else toString minutes ++ "m"

/-- `_get_poll_context` (services/reminder_manager.py, lines 369-393). -/
def getPollContext (polls : List Poll) (pid : String) (now : Int) :
    List (String × String) :=
  match findPoll polls pid with
  | none => [("poll_title", "Unknown Poll"), ("time_left", "Unknown")]
  | some poll =>
    let timeLeft :=
      match poll.expiresAt with
      | some t => if t > now then formatDelta (t - now) else "Expired"
      | none => "Expired"
    [("poll_title", poll.question), ("poll_id", poll.pollId),
     ("time_left", timeLeft),
     ("poll_status", if poll.isActive then "Active" else "Closed")]

/-- `_get_event_context` (services/reminder_manager.py, lines 395-401). -/
def getEventContext (eid : String) : List (String × String) :=
  [("event_title", "Event " ++ eid), ("event_id", eid)]

/-- Character scanner behind `substFormat`.  The second argument is `none`
outside a placeholder and `some keyChars` (reversed) while between an opening
and a closing brace (character codes 123 and 125). -/
def substAux (ctx : List (String × String)) :
    List Char → Option (List Char) → Except String String
  | [], none => .ok ""
  | [], some key => .error (String.mk key.reverse)
  | c :: rest, none =>
    if c.toNat == 123 then substAux ctx rest (some [])
    else (substAux ctx rest none).map (fun s => String.mk [c] ++ s)
  | c :: rest, some key =>
    if c.toNat == 125 then
      match ctx.find? (fun kv => kv.1 == String.mk key.reverse) with
      | some kv => (substAux ctx rest none).map (fun s => kv.2 ++ s)
      | none => .error (String.mk key.reverse)
    else substAux ctx rest (some (c :: key))

/-- `str.format(**context)` restricted to plain `\x7bkey\x7d` placeholders: a
missing key is the `KeyError` case, reported as `.error key`.  Lookup prefers
the earliest binding, so the caller lists later `dict.update` layers first. -/
def substFormat (cs : List Char) (ctx : List (String × String)) :
    Except String String :=
  substAux ctx cs none

/-- `_build_message_content` (services/reminder_manager.py, lines 342-367):
base context (template name, current time), then the target-derived context,
then `custom_data`, later layers overriding earlier ones (here: listed first,
since `substFormat` lookup takes the first binding). -/
def renderContext (polls : List Poll) (r : Reminder) (t : Template)
    (now : Int) : List (String × String) :=
  let base := [("reminder_name", t.name), ("current_time", formatTime now)]
  let targetCtx :=
    match r.targetType, r.targetId with
    | TargetType.poll, some pid => getPollContext polls pid now
    | TargetType.event, some eid => getEventContext eid
    | _, _ => []
  r.customData ++ targetCtx ++ base

/-- The rendered text of `_build_message_content`: substitute the template
against the context; the `KeyError` for a missing placeholder is caught and
replaced by the fallback error text naming the missing key. -/
def buildMessageContent (polls : List Poll) (r : Reminder) (t : Template)
    (now : Int) : String :=
  match substFormat t.messageTemplate.toList (renderContext polls r t now) with
  | .ok s => s
  | .error key => "Template error: Missing variable \x27" ++ key ++ "\x27"

/-- `_execute_reminder` (services/reminder_manager.py, lines 285-340).
`channelExists` models `self.bot.get_channel` returning a channel;
`sendOk`/`sendErr` model `channel.send` succeeding or raising with `str(e)`.
Returns the committed reminders table and the appended log entries. -/
def execute_reminder (polls : List Poll) (reminders : List Reminder)
    (templates : List Template) (channelExists sendOk : Bool)
    (sendErr : String) (rid : String) (now : Int) :
    List Reminder × List LogEntry :=
  match findReminder reminders rid with
  | none => (reminders, [])
  | some r =>
    if !r.isActive then (reminders, [])
    else
      match findTemplate templates r.templateId with
      | none => (reminders, [⟨rid, now, "failed", some "Template not found", none⟩])
      | some t =>
        let content := buildMessageContent polls r t now
        if !channelExists then
          (reminders, [⟨rid, now, "failed", some "Channel not found", none⟩])
        else if !sendOk then
          (reminders, [⟨rid, now, "failed", some sendErr, none⟩])
        else
          let newCount := r.occurrenceCount + 1
          let r' :=
            if r.isRecurring then
              if hasNoCap r.maxOccurrences
                  || decide (newCount < r.maxOccurrences.getD 0) then
                { r with lastTriggered := some now, occurrenceCount := newCount,
                         nextTrigger := some (now + r.intervalMinutes) }
              else
                { r with lastTriggered := some now, occurrenceCount := newCount,
                         isActive := false }
            else
              { r with lastTriggered := some now, occurrenceCount := newCount,
                       isActive := false }
          (updateReminder reminders rid r', [⟨rid, now, "sent", none, some content⟩])

/-- `k` consecutive due ticks for the same reminder, each running
`_execute_reminder` on the state left by the previous one. -/
def executeTimes (k : Nat) (polls : List Poll) (reminders : List Reminder)
    (templates : List Template) (channelExists sendOk : Bool)
    (sendErr rid : String) (now : Int) : List Reminder × List LogEntry :=
  match k with
  | 0 => (reminders, [])
  | Nat.succ k =>
    let step :=
      execute_reminder polls reminders templates channelExists sendOk sendErr rid now
    let rest :=
      executeTimes k polls step.1 templates channelExists sendOk sendErr rid now
    (rest.1, step.2 ++ rest.2)

/-- Closed form of a capped recurring reminder after `j` successful firings
(all at clock value `now`). -/
def rAfter (r : Reminder) (nCap : Nat) (now : Int) : Nat → Reminder
  | 0 => r
  | Nat.succ j =>
    { r with occurrenceCount := j + 1, lastTriggered := some now,
             nextTrigger := some (now + r.intervalMinutes),
             isActive := decide (j + 1 < nCap) }

def countSent (logs : List LogEntry) : Nat :=
  (logs.filter (fun e => e.status == "sent")).length

/-- The selection of `_check_pending_reminders` (services/reminder_manager.py,
lines 264-281): `is_active == True`, `next_trigger <= now`,
`next_trigger > now - timedelta(minutes=5)`; a SQL comparison against a NULL
`next_trigger` selects nothing. -/
def checkPendingSelect (reminders : List Reminder) (now : Int) : List Reminder :=
  reminders.filter (fun r =>
    r.isActive &&
      (match r.nextTrigger with
       | some t => decide (t ≤ now) && decide (t > now - 5)
       | none => false))

/-- `_calculate_time_before_trigger` (services/reminder_manager.py, lines
219-230): only for poll targets with a target id; sets `next_trigger` to
`expires_at − time_before_minutes` when that instant is still strictly in the
future, and otherwise leaves `next_trigger` as it was. -/
def calculate_time_before_trigger (polls : List Poll) (r : Reminder)
    (now : Int) : Option Int :=
  match r.targetType, r.targetId with
  | TargetType.poll, some tid =>
    (match findPoll polls tid with
     | some p =>
       (match p.expiresAt with
        | some expiry =>
          let trigger := expiry - r.timeBeforeMinutes
          if trigger > now then some trigger else r.nextTrigger
        | none => r.nextTrigger)
     | none => r.nextTrigger)
  | _, _ => r.nextTrigger

/-- Observable steps of one expiry-watcher pass, in program order. -/
inductive SweepEvent where
  | deactivated (pollId : String)
  | notifyAttempted (pollId : String) (ok : Bool)
  | committed
deriving DecidableEq

/-- The watcher's selection predicate: `is_active == True, expires_at <= now`
(SQL NULL `expires_at` selects nothing). -/
def expiredSelectPred (p : Poll) (now : Int) : Bool :=
  p.isActive && (match p.expiresAt with
                 | some t => decide (t ≤ now)
                 | none => false)

def expiredSelect (polls : List Poll) (now : Int) : List Poll :=
  polls.filter (fun p => expiredSelectPred p now)

/-- Per-poll events of the sweep loop body: the in-session deactivation, then
(when the poll has an origin channel) the best-effort notification attempt,
whose failure is caught. -/
def sweepPollEvents (p : Poll) (notifyOk : String → Bool) : List SweepEvent :=
  SweepEvent.deactivated p.pollId ::
    (match p.channelId with
     | some _ => [SweepEvent.notifyAttempted p.pollId (notifyOk p.pollId)]
     | none => [])

/-- One pass of `check_expired_polls` (botcore/bot.py, lines 176-211): select
the active expired polls, run the loop body for each, and commit once at the
end when anything was selected.  Returns the committed polls table and the
event trace. -/
def check_expired_polls_pass (polls : List Poll) (now : Int)
    (notifyOk : String → Bool) : List Poll × List SweepEvent :=
  let expired := expiredSelect polls now
  let events := (expired.map (fun p => sweepPollEvents p notifyOk)).flatten
  if expired.isEmpty then (polls, events)
  else
    (polls.map (fun p =>
       if expiredSelectPred p now then { p with isActive := false } else p),
     events ++ [SweepEvent.committed])

/-! ## Helper lemmas about the vote store -/

theorem votesFor_append (pid : String) (uid : Nat) (a b : List Vote) :
    votesFor pid uid (a ++ b) = votesFor pid uid a ++ votesFor pid uid b := by
  simp [votesFor]

theorem votesFor_kept (pid : String) (uid : Nat) (votes : List Vote) :
    votesFor pid uid
      (votes.filter (fun v => !(v.pollId == pid && v.userId == uid))) = [] := by
  simp only [votesFor, List.filter_filter]
  simp

theorem votesFor_mkList {α : Type} (pid : String) (uid : Nat) (l : List α)
    (f : α → Int) (now : Int) :
    votesFor pid uid (l.map (fun x => Vote.mk pid uid (f x) now))
      = l.map (fun x => Vote.mk pid uid (f x) now) := by
  simp [votesFor, List.filter_map, Function.comp_def]

theorem notMine_filter_idem (pid : String) (uid : Nat) (votes : List Vote) :
    (votes.filter (fun v => !(v.pollId == pid && v.userId == uid))).filter
        (fun v => !(v.pollId == pid && v.userId == uid))
      = votes.filter (fun v => !(v.pollId == pid && v.userId == uid)) := by
  simp [List.filter_filter]

theorem mkList_filter_notMine {α : Type} (pid : String) (uid : Nat)
    (l : List α) (f : α → Int) (now : Int) :
    (l.map (fun x => Vote.mk pid uid (f x) now)).filter
        (fun v => !(v.pollId == pid && v.userId == uid)) = [] := by
  simp [List.filter_map, Function.comp]

theorem findPoll_deactivatePoll (polls : List Poll) (pid : String) :
    findPoll (deactivatePoll polls pid) pid
      = (findPoll polls pid).map (fun p => { p with isActive := false }) := by
  induction polls with
  | nil => rfl
  | cons p ps ih =>
    simp only [deactivatePoll, List.map_cons] at *
    by_cases h : (p.pollId == pid) = true
    · rw [if_pos h]
      simp only [findPoll] at *
      have hup : (({ p with isActive := false } : Poll).pollId == pid) = true := h
      simp [h, hup]
    · rw [if_neg h]
      simp only [findPoll] at *
      have hfneg : ∀ l : List Poll,
          List.find? (fun q => q.pollId == pid) (p :: l)
            = List.find? (fun q => q.pollId == pid) l := by
        intro l
        apply List.find?_cons_of_neg
        exact h
      rw [hfneg, hfneg]
      exact ih

/-! ## Branch shapes of the two reconciliation passes -/

theorem vote_poll_command_success (polls : List Poll) (votes : List Vote)
    (pid : String) (uid : Nat) (optionList : List Int) (now : Int) (poll : Poll)
    (hfind : findPoll polls pid = some poll)
    (hactive : poll.isActive = true)
    (hfresh : pollExpired poll now = false)
    (hvalid : ∀ n ∈ optionList,
      1 ≤ n ∧ n ≤ ((splitOnComma poll.options).length : Int)) :
    vote_poll_command polls votes pid uid optionList now
      = (VoteOutcome.success (List.insertionSort (· ≤ ·) optionList.dedup),
         polls,
         votes.filter (fun v => !(v.pollId == pid && v.userId == uid))
           ++ (List.insertionSort (· ≤ ·) optionList.dedup).map
                (fun n => Vote.mk pid uid (n - 1) now)) := by
  have hinv : optionList.filter
      (fun n => decide (n < 1)
        || decide (n > (((splitOnComma poll.options).length : Nat) : Int))) = [] := by
    rw [List.filter_eq_nil_iff]
    intro n hn
    have h := hvalid n hn
    simp
    omega
  unfold vote_poll_command
  rw [hfind]
  simp [hactive, hfresh, hinv]

theorem sync_reaction_votes_success (polls : List Poll) (votes : List Vote)
    (pid : String) (uid : Nat) (reactions : List Reaction) (now : Int) (poll : Poll)
    (hfind : findPoll polls pid = some poll)
    (hactive : poll.isActive = true)
    (hfresh : pollExpired poll now = false) :
    sync_reaction_votes polls votes pid uid reactions now
      = (true, polls,
         votes.filter (fun v => !(v.pollId == pid && v.userId == uid))
           ++ ((reactionIndices reactions uid).filter
                (fun idx => decide (idx < (splitOnComma poll.options).length))).map
                (fun idx : Nat => Vote.mk pid uid (idx : Int) now)) := by
  unfold sync_reaction_votes
  rw [hfind]
  simp [hactive, hfresh]

theorem sync_reaction_votes_noPoll (polls : List Poll) (votes : List Vote)
    (pid : String) (uid : Nat) (reactions : List Reaction) (now : Int)
    (hfind : findPoll polls pid = none) :
    sync_reaction_votes polls votes pid uid reactions now = (false, polls, votes) := by
  unfold sync_reaction_votes
  rw [hfind]

theorem sync_reaction_votes_inactive (polls : List Poll) (votes : List Vote)
    (pid : String) (uid : Nat) (reactions : List Reaction) (now : Int) (poll : Poll)
    (hfind : findPoll polls pid = some poll)
    (hactive : poll.isActive = false) :
    sync_reaction_votes polls votes pid uid reactions now = (false, polls, votes) := by
  unfold sync_reaction_votes
  rw [hfind]
  simp [hactive]

theorem sync_reaction_votes_expired (polls : List Poll) (votes : List Vote)
    (pid : String) (uid : Nat) (reactions : List Reaction) (now : Int) (poll : Poll)
    (hfind : findPoll polls pid = some poll)
    (hactive : poll.isActive = true)
    (hexp : pollExpired poll now = true) :
    sync_reaction_votes polls votes pid uid reactions now
      = (false, deactivatePoll polls pid, votes) := by
  unfold sync_reaction_votes
  rw [hfind]
  simp [hactive, hexp]

/-- C1: for every poll, user and list of 1-based option numbers the vote
command accepts (poll exists, active, not past expiry, every number within
`[1, len(options)]`), the persisted Vote rows for (poll, user) afterwards are
exactly one row per distinct selected index converted to 0-based: distinct
indices, membership equal to the selected set, and only fresh rows (all
prior rows deleted, never a mix of stale and fresh votes). -/
theorem vote_poll_replaces_exactly
    (polls : List Poll) (votes : List Vote) (pid : String) (uid : Nat)
    (optionList : List Int) (now : Int) (poll : Poll)
    (hfind : findPoll polls pid = some poll)
    (hactive : poll.isActive = true)
    (hfresh : pollExpired poll now = false)
    (hvalid : ∀ n ∈ optionList,
      1 ≤ n ∧ n ≤ ((splitOnComma poll.options).length : Int)) :
    ((votesFor pid uid
        (vote_poll_command polls votes pid uid optionList now).2.2).map
        Vote.optionIndex).Nodup
    ∧ (∀ i : Int,
        i ∈ (votesFor pid uid
          (vote_poll_command polls votes pid uid optionList now).2.2).map
          Vote.optionIndex
        ↔ ∃ n ∈ optionList, i = n - 1)
    ∧ (∀ v ∈ votesFor pid uid
          (vote_poll_command polls votes pid uid optionList now).2.2,
        v.votedAt = now) := by
  rw [vote_poll_command_success polls votes pid uid optionList now poll hfind
    hactive hfresh hvalid]
  dsimp only
  rw [votesFor_append, votesFor_kept,
    votesFor_mkList pid uid _ (fun n => n - 1) now, List.nil_append]
  have hperm : (List.insertionSort (· ≤ ·) optionList.dedup).Perm
      optionList.dedup := List.perm_insertionSort _ _
  refine ⟨?_, ?_, ?_⟩
  · rw [List.map_map]
    have hcomp : (Vote.optionIndex ∘ fun n : Int => Vote.mk pid uid (n - 1) now)
        = fun n : Int => n - 1 := rfl
    rw [hcomp]
    exact List.Nodup.map (fun a b hab => by omega)
      (hperm.nodup_iff.mpr (List.nodup_dedup _))
  · intro i
    rw [List.map_map]
    simp only [List.mem_map, Function.comp]
    constructor
    · rintro ⟨n, hn, hni⟩
      exact ⟨n, List.mem_dedup.mp (hperm.mem_iff.mp hn), hni.symm⟩
    · rintro ⟨n, hn, rfl⟩
      exact ⟨n, hperm.mem_iff.mpr (List.mem_dedup.mpr hn), rfl⟩
  · intro v hv
    obtain ⟨n, _, rfl⟩ := List.mem_map.mp hv
    rfl

/-- A concrete three-option simple poll used to instantiate the theorems. -/
def samplePoll : Poll := ⟨"p", "Q?", "A,B,C", 1, some 9, true, false, 0, none⟩

/-- A concrete reaction state: user 7 reacted with the option-A and option-C
emojis. -/
def sampleReactions : List Reaction :=
  [⟨String.mk [Char.ofNat 0x1F1E6], [7]⟩, ⟨String.mk [Char.ofNat 0x1F1E8], [7]⟩]

/-- Instantiation of `vote_poll_replaces_exactly` at a concrete accepted vote
(3-option poll, stale row present, selection `[2, 3]`). -/
theorem vote_poll_replaces_exactly_witness :
    ((votesFor "p" 7
        (vote_poll_command [samplePoll]
          [Vote.mk "p" 7 0 0] "p" 7 [2, 3] 5).2.2).map Vote.optionIndex).Nodup
    ∧ (∀ i : Int,
        i ∈ (votesFor "p" 7
          (vote_poll_command [samplePoll]
            [Vote.mk "p" 7 0 0] "p" 7 [2, 3] 5).2.2).map Vote.optionIndex
        ↔ ∃ n ∈ [(2 : Int), 3], i = n - 1)
    ∧ (∀ v ∈ votesFor "p" 7
          (vote_poll_command [samplePoll]
            [Vote.mk "p" 7 0 0] "p" 7 [2, 3] 5).2.2,
        v.votedAt = 5) :=
  vote_poll_replaces_exactly [samplePoll] [Vote.mk "p" 7 0 0] "p" 7 [2, 3] 5
    samplePoll rfl rfl rfl (by decide)

/-- C2 counterexample: a simple (non-advanced, hence non-multi) active poll
with three options; the command vote `[1, 2]` is accepted and leaves two
persisted Vote rows for the user, violating `count ≤ 1`. -/
theorem vote_poll_nonmulti_two_rows_cex :
    Poll.isAdvanced (Poll.mk "p" "Q?" "A,B,C" 1 (some 9) true false 0 none) = false
    ∧ (vote_poll_command [Poll.mk "p" "Q?" "A,B,C" 1 (some 9) true false 0 none]
        [] "p" 7 [1, 2] 0).1 = VoteOutcome.success [1, 2]
    ∧ (votesFor "p" 7
        (vote_poll_command [Poll.mk "p" "Q?" "A,B,C" 1 (some 9) true false 0 none]
          [] "p" 7 [1, 2] 0).2.2).length = 2 := by
  refine ⟨rfl, ?_, ?_⟩ <;> decide

/-- C2 amended: the code enforces no single-vote cap for any poll (no multi
flag is persisted or checked); after a reconciliation pass the number of Vote
rows for (poll, user) equals the number of distinct valid selections of that
pass — the distinct option numbers for a command vote, the valid reaction
indices for a reaction sync — which may exceed 1. -/
theorem reconciliation_rows_eq_distinct_selection
    (polls : List Poll) (votes : List Vote) (pid : String) (uid : Nat)
    (now : Int) (poll : Poll)
    (hfind : findPoll polls pid = some poll)
    (hactive : poll.isActive = true)
    (hfresh : pollExpired poll now = false) :
    (∀ optionList : List Int,
      (∀ n ∈ optionList,
        1 ≤ n ∧ n ≤ ((splitOnComma poll.options).length : Int)) →
      (votesFor pid uid
        (vote_poll_command polls votes pid uid optionList now).2.2).length
        = optionList.dedup.length)
    ∧ ∀ reactions : List Reaction,
      (votesFor pid uid
        (sync_reaction_votes polls votes pid uid reactions now).2.2).length
        = ((reactionIndices reactions uid).filter
            (fun idx => decide (idx < (splitOnComma poll.options).length))).length := by
  constructor
  · intro optionList hvalid
    rw [vote_poll_command_success polls votes pid uid optionList now poll hfind
      hactive hfresh hvalid]
    dsimp only
    rw [votesFor_append, votesFor_kept,
      votesFor_mkList pid uid _ (fun n => n - 1) now]
    rw [List.nil_append, List.length_map]
    exact (List.perm_insertionSort _ _).length_eq
  · intro reactions
    rw [sync_reaction_votes_success polls votes pid uid reactions now poll hfind
      hactive hfresh]
    dsimp only
    rw [votesFor_append, votesFor_kept,
      votesFor_mkList pid uid _ (fun idx : Nat => (idx : Int)) now]
    rw [List.nil_append, List.length_map]

/-- Instantiation of `reconciliation_rows_eq_distinct_selection` at a concrete
poll: command vote `[1, 2, 2]` leaves two rows; a reaction sync with reactions
on options A and C leaves two rows. -/
theorem reconciliation_rows_eq_distinct_selection_witness :
    ((votesFor "p" 7
        (vote_poll_command [samplePoll] [] "p" 7 [1, 2, 2] 0).2.2).length = 2)
    ∧ ((votesFor "p" 7
        (sync_reaction_votes [samplePoll] [] "p" 7 sampleReactions 0).2.2).length
        = 2) :=
  ⟨((reconciliation_rows_eq_distinct_selection [samplePoll] [] "p" 7 0 samplePoll
      rfl rfl rfl).1 [1, 2, 2] (by decide)).trans (by decide),
   ((reconciliation_rows_eq_distinct_selection [samplePoll] [] "p" 7 0 samplePoll
      rfl rfl rfl).2 sampleReactions).trans (by decide)⟩

/-- C3: running the reaction-based reconciliation twice in succession with an
unchanged reaction set leaves, after the second run, exactly the same option
indices persisted for (poll, user) as after the first run, whatever the two
clock readings are. -/
theorem sync_reaction_votes_idempotent
    (polls : List Poll) (votes : List Vote) (pid : String) (uid : Nat)
    (reactions : List Reaction) (now1 now2 : Int) :
    (votesFor pid uid
      (sync_reaction_votes
        (sync_reaction_votes polls votes pid uid reactions now1).2.1
        (sync_reaction_votes polls votes pid uid reactions now1).2.2
        pid uid reactions now2).2.2).map Vote.optionIndex
    = (votesFor pid uid
        (sync_reaction_votes polls votes pid uid reactions now1).2.2).map
        Vote.optionIndex := by
  cases hfind : findPoll polls pid with
  | none =>
    rw [sync_reaction_votes_noPoll _ _ _ _ _ _ hfind]
    dsimp only
    rw [sync_reaction_votes_noPoll _ _ _ _ _ _ hfind]
  | some poll =>
    by_cases hact : poll.isActive = true
    · by_cases hexp : pollExpired poll now1 = true
      · rw [sync_reaction_votes_expired _ _ _ _ _ _ _ hfind hact hexp]
        dsimp only
        have hfind2 : findPoll (deactivatePoll polls pid) pid
            = some { poll with isActive := false } := by
          rw [findPoll_deactivatePoll, hfind]
          rfl
        rw [sync_reaction_votes_inactive _ _ _ _ _ _ _ hfind2 rfl]
      · have hfresh : pollExpired poll now1 = false := by
          simpa using hexp
        rw [sync_reaction_votes_success _ _ _ _ _ _ _ hfind hact hfresh]
        dsimp only
        by_cases hexp2 : pollExpired poll now2 = true
        · rw [sync_reaction_votes_expired _ _ _ _ _ _ _ hfind hact hexp2]
        · have hfresh2 : pollExpired poll now2 = false := by
            simpa using hexp2
          rw [sync_reaction_votes_success _ _ _ _ _ _ _ hfind hact hfresh2]
          dsimp only
          rw [List.filter_append, notMine_filter_idem,
            mkList_filter_notMine pid uid _ (fun idx : Nat => (idx : Int)) now1,
            List.append_nil]
          rw [votesFor_append, votesFor_append, votesFor_kept,
            votesFor_mkList pid uid _ (fun idx : Nat => (idx : Int)) now1,
            votesFor_mkList pid uid _ (fun idx : Nat => (idx : Int)) now2]
          simp [List.map_map]
    · have hact' : poll.isActive = false := by
        simpa using hact
      rw [sync_reaction_votes_inactive _ _ _ _ _ _ _ hfind hact']
      dsimp only
      rw [sync_reaction_votes_inactive _ _ _ _ _ _ _ hfind hact']

/-! ## Trigger calculation (C4) -/

/-- C4: for a `time_before` reminder on a poll target with
`expires_at = T` and `time_before_minutes = m`: when `T − m` is strictly in
the future, `next_trigger` is set to exactly `T − m`; when `T − m` is already
past, or the poll is missing, or the poll has no expiry, `next_trigger` stays
unset — the calculation never fails. -/
theorem time_before_trigger_calculation
    (polls : List Poll) (r : Reminder) (now : Int) (tid : String)
    (ht : r.targetType = TargetType.poll)
    (hid : r.targetId = some tid)
    (hnt : r.nextTrigger = none) :
    (∀ p T, findPoll polls tid = some p → p.expiresAt = some T →
      ((T - r.timeBeforeMinutes > now →
         calculate_time_before_trigger polls r now = some (T - r.timeBeforeMinutes))
       ∧ (T - r.timeBeforeMinutes < now →
         calculate_time_before_trigger polls r now = none)))
    ∧ (findPoll polls tid = none →
        calculate_time_before_trigger polls r now = none)
    ∧ (∀ p, findPoll polls tid = some p → p.expiresAt = none →
        calculate_time_before_trigger polls r now = none) := by
  refine ⟨?_, ?_, ?_⟩
  · intro p T hp hT
    constructor
    · intro hfut
      unfold calculate_time_before_trigger
      rw [ht, hid]
      dsimp only
      rw [hp]
      dsimp only
      rw [hT]
      dsimp only
      rw [if_pos hfut]
    · intro hpast
      unfold calculate_time_before_trigger
      rw [ht, hid]
      dsimp only
      rw [hp]
      dsimp only
      rw [hT]
      dsimp only
      rw [if_neg (by omega), hnt]
  · intro hp
    unfold calculate_time_before_trigger
    rw [ht, hid]
    dsimp only
    rw [hp]
    dsimp only
    exact hnt
  · intro p hp hT
    unfold calculate_time_before_trigger
    rw [ht, hid]
    dsimp only
    rw [hp]
    dsimp only
    rw [hT]
    exact hnt

/-- An unscheduled `time_before(30)` reminder targeting poll "p". -/
def sampleTimeBeforeReminder : Reminder :=
  ⟨"r2", 3, TargetType.poll, some "p", 9, TriggerType.timeBefore, none, 30, 0,
   false, none, 0, none, none, true, [], 1⟩

/-- Poll "p" expiring at time 100. -/
def samplePollExpiry100 : Poll := ⟨"p", "Q", "A,B", 1, none, true, false, 0, some 100⟩

/-- Poll "p" with no expiry. -/
def samplePollNoExpiry : Poll := ⟨"p", "Q", "A,B", 1, none, true, false, 0, none⟩

/-- Instantiation of `time_before_trigger_calculation`: created 60 minutes
before expiry the reminder is scheduled at `T − 30 = 70`; created 10 minutes
before expiry, or with a missing poll, or with no expiry, it stays unset. -/
theorem time_before_trigger_calculation_witness :
    calculate_time_before_trigger [samplePollExpiry100] sampleTimeBeforeReminder 40
      = some 70
    ∧ calculate_time_before_trigger [samplePollExpiry100] sampleTimeBeforeReminder 90
      = none
    ∧ calculate_time_before_trigger [] sampleTimeBeforeReminder 40 = none
    ∧ calculate_time_before_trigger [samplePollNoExpiry] sampleTimeBeforeReminder 40
      = none :=
  ⟨((time_before_trigger_calculation [samplePollExpiry100] sampleTimeBeforeReminder
      40 "p" rfl rfl rfl).1 samplePollExpiry100 100 rfl rfl).1 (by decide),
   ((time_before_trigger_calculation [samplePollExpiry100] sampleTimeBeforeReminder
      90 "p" rfl rfl rfl).1 samplePollExpiry100 100 rfl rfl).2 (by decide),
   (time_before_trigger_calculation [] sampleTimeBeforeReminder 40 "p"
      rfl rfl rfl).2.1 rfl,
   (time_before_trigger_calculation [samplePollNoExpiry] sampleTimeBeforeReminder
      40 "p" rfl rfl rfl).2.2 samplePollNoExpiry rfl rfl⟩

/-! ## Reminder execution failure paths (C7, C8, C9) -/

/-- An active recurring interval reminder (cap 3, count 0) on template 3. -/
def sampleIntervalReminder : Reminder :=
  ⟨"r1", 3, TargetType.custom, none, 9, TriggerType.interval, none, 0, 5,
   true, some 3, 0, some 10, none, true, [], 1⟩

/-- Template 3 whose pattern has an unresolvable placeholder. -/
def sampleBadTemplate : Template :=
  ⟨3, "tmpl", "Hi \x7bmissing\x7d", "urgent", [], [], "#ff0000", 1⟩

/-- Template 3 whose pattern renders successfully. -/
def sampleOkTemplate : Template :=
  ⟨3, "tmpl", "Hi \x7breminder_name\x7d", "urgent", [], [], "#ff0000", 1⟩

/-- C8 counterexample: executing an active reminder whose template is missing
logs `failed` ("Template not found") but the reminder is left unchanged and
therefore still active — not `is_active = false` as claimed. -/
theorem execute_missing_template_stays_active_cex :
    Reminder.isActive sampleIntervalReminder = true
    ∧ execute_reminder [] [sampleIntervalReminder] [] true true "err" "r1" 100
        = ([sampleIntervalReminder],
           [⟨"r1", 100, "failed", some "Template not found", none⟩])
    ∧ ((execute_reminder [] [sampleIntervalReminder] [] true true "err" "r1"
        100).1.map Reminder.isActive) = [true] := by
  refine ⟨rfl, ?_, ?_⟩ <;> decide

/-- C8 amended: when the referenced template no longer exists, the executor
logs a `failed` entry with message "Template not found" and leaves the
reminder table unchanged — in particular the reminder, active before the
execution, remains active. -/
theorem execute_missing_template
    (polls : List Poll) (reminders : List Reminder) (templates : List Template)
    (channelExists sendOk : Bool) (sendErr rid : String) (now : Int)
    (r : Reminder)
    (hfind : findReminder reminders rid = some r)
    (hact : r.isActive = true)
    (htmpl : findTemplate templates r.templateId = none) :
    execute_reminder polls reminders templates channelExists sendOk sendErr rid now
      = (reminders, [⟨rid, now, "failed", some "Template not found", none⟩]) := by
  simp [execute_reminder, hfind, hact, htmpl]

/-- Instantiation of `execute_missing_template` with an empty template table. -/
theorem execute_missing_template_witness :
    execute_reminder [] [sampleIntervalReminder] [] false false "err" "r1" 100
      = ([sampleIntervalReminder],
         [⟨"r1", 100, "failed", some "Template not found", none⟩]) :=
  execute_missing_template [] [sampleIntervalReminder] [] false false "err" "r1"
    100 sampleIntervalReminder rfl rfl rfl

/-- C9: when dispatch fails — the channel is unreachable or `send` raises —
exactly one log entry is appended and its status is `failed`, and the
reminders table is left unchanged, so `occurrence_count`, `next_trigger`,
`last_triggered` and `is_active` all keep their prior values and no
occurrence is consumed. -/
theorem execute_send_failure_leaves_state
    (polls : List Poll) (reminders : List Reminder) (templates : List Template)
    (channelExists sendOk : Bool) (sendErr rid : String) (now : Int)
    (r : Reminder) (t : Template)
    (hfind : findReminder reminders rid = some r)
    (hact : r.isActive = true)
    (htmpl : findTemplate templates r.templateId = some t)
    (hfail : channelExists = false ∨ sendOk = false) :
    (execute_reminder polls reminders templates channelExists sendOk sendErr
      rid now).1 = reminders
    ∧ ((execute_reminder polls reminders templates channelExists sendOk sendErr
        rid now).2).map LogEntry.status = ["failed"] := by
  rcases hfail with h | h <;> subst h
  · simp [execute_reminder, hfind, hact, htmpl]
  · cases channelExists <;> simp [execute_reminder, hfind, hact, htmpl]

/-- Instantiation of `execute_send_failure_leaves_state`: `send` raising. -/
theorem execute_send_failure_leaves_state_witness :
    (execute_reminder [] [sampleIntervalReminder] [sampleOkTemplate] true false
      "boom" "r1" 100).1 = [sampleIntervalReminder]
    ∧ ((execute_reminder [] [sampleIntervalReminder] [sampleOkTemplate] true false
        "boom" "r1" 100).2).map LogEntry.status = ["failed"] :=
  execute_send_failure_leaves_state [] [sampleIntervalReminder] [sampleOkTemplate]
    true false "boom" "r1" 100 sampleIntervalReminder sampleOkTemplate
    rfl rfl rfl (Or.inr rfl)

/-- C7 counterexample: a reminder whose template has an unresolved placeholder
executes to completion — the run appends exactly one log entry, its status is
`sent` (not `failed`), carrying the fallback text that names the missing key. -/
theorem execute_missing_placeholder_logs_sent_cex :
    (execute_reminder [] [sampleIntervalReminder] [sampleBadTemplate] true true
      "err" "r1" 100).2
      = [⟨"r1", 100, "sent", none,
          some "Template error: Missing variable \x27missing\x27"⟩] := by
  decide

/-- C7 amended: an unresolved placeholder is recoverable, but not by logging
`failed`: the `KeyError` is caught inside message building, the whole message
is replaced by the fallback text "Template error: Missing variable '<key>'"
naming the missing key, the dispatch proceeds, and (when the send succeeds)
the firing logs `sent` with that fallback text — no `failed` entry. -/
theorem execute_missing_placeholder_sends_fallback
    (polls : List Poll) (reminders : List Reminder) (templates : List Template)
    (sendErr rid : String) (now : Int) (r : Reminder) (t : Template) (key : String)
    (hfind : findReminder reminders rid = some r)
    (hact : r.isActive = true)
    (htmpl : findTemplate templates r.templateId = some t)
    (hsub : substFormat t.messageTemplate.toList (renderContext polls r t now)
      = Except.error key) :
    (execute_reminder polls reminders templates true true sendErr rid now).2
      = [⟨rid, now, "sent", none,
          some ("Template error: Missing variable \x27" ++ key ++ "\x27")⟩] := by
  have hsub' : substFormat t.messageTemplate.data (renderContext polls r t now)
      = Except.error key := hsub
  simp [execute_reminder, hfind, hact, htmpl, buildMessageContent, hsub']

/-- Instantiation of `execute_missing_placeholder_sends_fallback` at the
concrete bad template. -/
theorem execute_missing_placeholder_sends_fallback_witness :
    (execute_reminder [] [sampleIntervalReminder] [sampleBadTemplate] true true
      "err" "r1" 100).2
      = [⟨"r1", 100, "sent", none,
          some ("Template error: Missing variable \x27" ++ "missing" ++ "\x27")⟩] :=
  execute_missing_placeholder_sends_fallback [] [sampleIntervalReminder]
    [sampleBadTemplate] "err" "r1" 100 sampleIntervalReminder sampleBadTemplate
    "missing" rfl rfl rfl rfl

/-! ## Missed-reminder sweep selection (C10) -/

/-- C10: the missed-reminder sweep selects exactly the active reminders whose
`next_trigger` lies in the half-open window `(now − 5, now]`; consequently an
active reminder whose trigger passed more than 5 minutes ago (or exactly 5
minutes ago, or that has no trigger) is never fired by the sweep. -/
theorem missed_sweep_selection_window
    (reminders : List Reminder) (now : Int) (r : Reminder) :
    r ∈ checkPendingSelect reminders now
    ↔ r ∈ reminders ∧ r.isActive = true
      ∧ ∃ t, r.nextTrigger = some t ∧ now - 5 < t ∧ t ≤ now := by
  cases hnt : r.nextTrigger with
  | none =>
    simp [checkPendingSelect, List.mem_filter, hnt]
  | some t =>
    simp only [checkPendingSelect, List.mem_filter, hnt]
    constructor
    · rintro ⟨hmem, hcond⟩
      simp at hcond
      exact ⟨hmem, hcond.1, t, rfl, by omega, hcond.2.1⟩
    · rintro ⟨hmem, hact, t', ht', h1, h2⟩
      cases ht'
      refine ⟨hmem, ?_⟩
      simp [hact]
      omega

/-! ## Expiry watcher (C6) -/

/-- An active poll with a past expiry and an origin channel. -/
def sampleExpiredPoll : Poll := ⟨"p", "Q?", "A,B", 1, some 1, true, false, 0, some 0⟩

/-- C6 counterexample: in a pass over one expired poll whose notification
fails, the event trace is deactivation, then the notification attempt, then
the commit — the commit does not precede the notification attempt, yet the
deactivation is still persisted (not rolled back) and the pass completes. -/
theorem expiry_commit_after_notify_cex :
    (check_expired_polls_pass [sampleExpiredPoll] 5 (fun _ => false)).2
      = [SweepEvent.deactivated "p", SweepEvent.notifyAttempted "p" false,
         SweepEvent.committed]
    ∧ SweepEvent.notifyAttempted "p" false
        ∈ ((check_expired_polls_pass [sampleExpiredPoll] 5 (fun _ => false)).2.takeWhile
            (fun e => !decide (e = SweepEvent.committed)))
    ∧ (check_expired_polls_pass [sampleExpiredPoll] 5 (fun _ => false)).1
        = [{ sampleExpiredPoll with isActive := false }] := by
  refine ⟨?_, ?_, ?_⟩ <;> decide

/-- C6 amended: each watcher pass deactivates every selected poll (active with
past expiry) independently of any notification outcome — the persisted result
is the same whatever the notification outcomes are; every selected poll's
deactivation is part of the pass (notification failures abort neither the
remaining polls nor the final commit, which happens once at the end of the
pass, after the notification attempts); and a repeated pass before any other
mutation is a no-op. -/
theorem check_expired_polls_pass_behavior
    (polls : List Poll) (now : Int) (f g : String → Bool) (p : Poll)
    (hp : p ∈ expiredSelect polls now) :
    (check_expired_polls_pass polls now f).1 = (check_expired_polls_pass polls now g).1
    ∧ SweepEvent.deactivated p.pollId ∈ (check_expired_polls_pass polls now f).2
    ∧ check_expired_polls_pass (check_expired_polls_pass polls now f).1 now g
        = ((check_expired_polls_pass polls now f).1, []) := by
  have hne : ((expiredSelect polls now).isEmpty) = false := by
    cases hsel : expiredSelect polls now with
    | nil => rw [hsel] at hp; cases hp
    | cons a l => rfl
  have hres : (check_expired_polls_pass polls now f).1
      = polls.map (fun q =>
          if expiredSelectPred q now then { q with isActive := false } else q) := by
    simp only [check_expired_polls_pass]
    rw [hne]
    rfl
  have hresg : (check_expired_polls_pass polls now g).1
      = polls.map (fun q =>
          if expiredSelectPred q now then { q with isActive := false } else q) := by
    simp only [check_expired_polls_pass]
    rw [hne]
    rfl
  refine ⟨hres.trans hresg.symm, ?_, ?_⟩
  · simp only [check_expired_polls_pass]
    rw [hne]
    rw [if_neg Bool.false_ne_true]
    apply List.mem_append_left
    rw [List.mem_flatten]
    exact ⟨sweepPollEvents p f, List.mem_map_of_mem _ hp, by simp [sweepPollEvents]⟩
  · have hsel2 : expiredSelect ((check_expired_polls_pass polls now f).1) now = [] := by
      rw [hres]
      unfold expiredSelect
      rw [List.filter_eq_nil_iff]
      intro q hq
      obtain ⟨q0, hq0, rfl⟩ := List.mem_map.mp hq
      by_cases h0 : expiredSelectPred q0 now
      · rw [if_pos h0]
        simp [expiredSelectPred]
      · rw [if_neg h0]
        exact h0
    have hsel2' : (expiredSelect ((check_expired_polls_pass polls now f).1) now).isEmpty
        = true := by
      rw [hsel2]
      rfl
    generalize hgen : (check_expired_polls_pass polls now f).1 = res
    rw [hgen] at hsel2 hsel2'
    simp only [check_expired_polls_pass]
    rw [hsel2', hsel2]
    rfl

/-- Instantiation of `check_expired_polls_pass_behavior` at the concrete
expired poll, with a failing and a succeeding notification function. -/
theorem check_expired_polls_pass_behavior_witness :
    (check_expired_polls_pass [sampleExpiredPoll] 5 (fun _ => false)).1
      = (check_expired_polls_pass [sampleExpiredPoll] 5 (fun _ => true)).1
    ∧ SweepEvent.deactivated "p"
        ∈ (check_expired_polls_pass [sampleExpiredPoll] 5 (fun _ => false)).2
    ∧ check_expired_polls_pass
        (check_expired_polls_pass [sampleExpiredPoll] 5 (fun _ => false)).1 5
        (fun _ => true)
        = ((check_expired_polls_pass [sampleExpiredPoll] 5 (fun _ => false)).1, []) :=
  check_expired_polls_pass_behavior [sampleExpiredPoll] 5 (fun _ => false)
    (fun _ => true) sampleExpiredPoll (by decide)

/-! ## Recurrence cap (C5) -/

theorem countSent_append (a b : List LogEntry) :
    countSent (a ++ b) = countSent a + countSent b := by
  simp [countSent, List.filter_append]

/-- Invariant relating the reminder row after `j` successful firings to the
original row `r` with recurrence cap `nCap`. -/
def goodState (r : Reminder) (nCap : Nat) (j : Nat) (s : Reminder) : Prop :=
  s.reminderId = r.reminderId ∧ s.templateId = r.templateId
  ∧ s.isRecurring = true ∧ s.maxOccurrences = some nCap
  ∧ s.occurrenceCount = j ∧ s.isActive = decide (j < nCap)

theorem execute_reminder_goodState_step
    (polls : List Poll) (t : Template) (sendErr : String) (now : Int)
    (r : Reminder) (nCap j : Nat) (s : Reminder)
    (hN : 1 ≤ nCap)
    (htmpl : t.id = r.templateId)
    (hs : goodState r nCap j s) :
    (j < nCap → ∃ s',
      execute_reminder polls [s] [t] true true sendErr r.reminderId now
        = ([s'], [⟨r.reminderId, now, "sent", none,
            some (buildMessageContent polls s t now)⟩])
      ∧ goodState r nCap (j + 1) s')
    ∧ (j = nCap →
      execute_reminder polls [s] [t] true true sendErr r.reminderId now
        = ([s], [])) := by
  obtain ⟨hid, htid, hrec, hmax, hcnt, hactj⟩ := hs
  have hfind : findReminder [s] r.reminderId = some s := by
    simp [findReminder, hid]
  have hT : findTemplate [t] s.templateId = some t := by
    simp [findTemplate, htid, htmpl]
  constructor
  · intro hlt
    have hactive : s.isActive = true := by
      rw [hactj]
      simp [hlt]
    have hnocap : hasNoCap s.maxOccurrences = false := by
      rw [hmax]
      simp [hasNoCap]
      omega
    by_cases hre : j + 1 < nCap
    · refine ⟨{ s with
          lastTriggered := some now,
          occurrenceCount := s.occurrenceCount + 1,
          nextTrigger := some (now + s.intervalMinutes) }, ?_, ?_⟩
      · simp [execute_reminder, hfind, hactive, hT, hrec, hmax, hnocap, hcnt,
          hre, hid, updateReminder, hasNoCap]
      · refine ⟨hid, htid, hrec, by rw [hmax], by rw [hcnt], ?_⟩
        show s.isActive = decide (j + 1 < nCap)
        rw [hactive]
        simp [hre]
    · refine ⟨{ s with
          lastTriggered := some now,
          occurrenceCount := s.occurrenceCount + 1,
          isActive := false }, ?_, ?_⟩
      · simp [execute_reminder, hfind, hactive, hT, hrec, hmax, hnocap, hcnt,
          hre, hid, updateReminder, hasNoCap]
        omega
      · refine ⟨hid, htid, hrec, by rw [hmax], by rw [hcnt], ?_⟩
        show false = decide (j + 1 < nCap)
        simp [hre]
  · intro hEq
    subst hEq
    have hinactive : s.isActive = false := by
      rw [hactj]
      simp
    simp [execute_reminder, hfind, hinactive]

theorem executeTimes_goodState
    (polls : List Poll) (t : Template) (sendErr : String) (now : Int)
    (r : Reminder) (nCap : Nat)
    (hN : 1 ≤ nCap)
    (htmpl : t.id = r.templateId) :
    ∀ k j s, goodState r nCap j s → j ≤ nCap →
      countSent (executeTimes k polls [s] [t] true true sendErr
        r.reminderId now).2 = min (j + k) nCap - j
      ∧ ∃ s', (executeTimes k polls [s] [t] true true sendErr
          r.reminderId now).1 = [s']
        ∧ goodState r nCap (min (j + k) nCap) s' := by
  intro k
  induction k with
  | zero =>
    intro j s hs hj
    have hmin : min (j + 0) nCap = j := by omega
    rw [hmin]
    exact ⟨by simp [executeTimes, countSent], s, by simp [executeTimes], hs⟩
  | succ k ih =>
    intro j s hs hj
    rcases Nat.lt_or_ge j nCap with hlt | hge
    · obtain ⟨s', hstep, hs'⟩ :=
        (execute_reminder_goodState_step polls t sendErr now r nCap j s hN
          htmpl hs).1 hlt
      obtain ⟨hcount, s'', hfin, hs''⟩ := ih (j + 1) s' hs' hlt
      have hmin : min (j + 1 + k) nCap = min (j + (k + 1)) nCap := by omega
      constructor
      · simp only [executeTimes]
        rw [hstep]
        dsimp only
        rw [countSent_append, hcount, hmin]
        have : countSent [⟨r.reminderId, now, "sent", none,
            some (buildMessageContent polls s t now)⟩] = 1 := by
          simp [countSent]
        rw [this]
        omega
      · refine ⟨s'', ?_, ?_⟩
        · simp only [executeTimes]
          rw [hstep]
          dsimp only
          exact hfin
        · rw [hmin] at hs''
          exact hs''
    · have hEq : j = nCap := Nat.le_antisymm hj hge
      have hstep :=
        (execute_reminder_goodState_step polls t sendErr now r nCap j s hN
          htmpl hs).2 hEq
      obtain ⟨hcount, s'', hfin, hs''⟩ := ih j s hs hj
      have hmin : min (j + k) nCap = min (j + (k + 1)) nCap := by omega
      constructor
      · simp only [executeTimes]
        rw [hstep]
        dsimp only
        rw [countSent_append, hcount, hmin]
        simp [countSent]
      · refine ⟨s'', ?_, ?_⟩
        · simp only [executeTimes]
          rw [hstep]
          dsimp only
          exact hfin
        · rw [hmin] at hs''
          exact hs''

/-- C5: a recurring interval reminder with `max_occurrences = N ≥ 1` fires on
`k` due ticks exactly `min k N` times — each success increments
`occurrence_count`, after the `N`-th success `is_active` is false, and any
further due tick produces no firing because execution no-ops on an inactive
reminder; in particular `N + 1` ticks yield exactly `N` sent firings. -/
theorem interval_reminder_fires_exactly_cap
    (polls : List Poll) (r : Reminder) (t : Template) (sendErr : String)
    (now : Int) (nCap k : Nat)
    (hrec : r.isRecurring = true)
    (hmax : r.maxOccurrences = some nCap)
    (hN : 1 ≤ nCap)
    (hcount : r.occurrenceCount = 0)
    (hact : r.isActive = true)
    (htmpl : t.id = r.templateId) :
    countSent (executeTimes k polls [r] [t] true true sendErr
      r.reminderId now).2 = min k nCap
    ∧ ∃ s, (executeTimes k polls [r] [t] true true sendErr
        r.reminderId now).1 = [s]
      ∧ s.occurrenceCount = min k nCap
      ∧ s.isActive = decide (k < nCap) := by
  have hgood : goodState r nCap 0 r := by
    refine ⟨rfl, rfl, hrec, hmax, hcount, ?_⟩
    rw [hact]
    have : 0 < nCap := hN
    simp [this]
  obtain ⟨hcnt, s, hfin, hs⟩ :=
    executeTimes_goodState polls t sendErr now r nCap hN htmpl k 0 r hgood
      (Nat.zero_le _)
  have hmin : min (0 + k) nCap = min k nCap := by omega
  rw [hmin] at hcnt hs
  obtain ⟨_, _, _, _, hsc, hsa⟩ := hs
  refine ⟨by rw [hcnt]; omega, s, hfin, hsc, ?_⟩
  rw [hsa]
  rw [decide_eq_decide]
  omega

/-- Instantiation of `interval_reminder_fires_exactly_cap`: the cap-3 interval
reminder, given 4 due ticks, fires exactly 3 times and ends inactive with
`occurrence_count = 3`. -/
theorem interval_reminder_fires_exactly_cap_witness :
    countSent (executeTimes 4 [] [sampleIntervalReminder] [sampleOkTemplate]
      true true "err" "r1" 100).2 = min 4 3
    ∧ ∃ s, (executeTimes 4 [] [sampleIntervalReminder] [sampleOkTemplate]
        true true "err" "r1" 100).1 = [s]
      ∧ s.occurrenceCount = min 4 3
      ∧ s.isActive = decide (4 < 3) :=
  interval_reminder_fires_exactly_cap [] sampleIntervalReminder sampleOkTemplate
    "err" 100 3 4 rfl rfl (by omega) rfl rfl rfl

end DiscordBot

